import Mathlib

/-!
Verification of the IRRF 2025/2026 payroll-tax calculator
(`calculadora_irrf_2025_2026_corrigida.py`).

The computational core is a handful of pure functions over exact decimal
amounts; we embed them over `ℚ` (decimal literals such as `1412.00` denote
exact rationals).  Each definition below mirrors one Python function,
branch for branch.
-/

namespace IRRF

/-- INSS (social-security) contribution, 2025 progressive table with a hard
cap above R$ 7786.02.  Mirrors `calcular_inss`. -/
def calcular_inss (salario : ℚ) : ℚ :=
  if salario ≤ 1412.00 then
    salario * 0.075
  else if salario ≤ 2666.68 then
    1412.00 * 0.075 + (salario - 1412.00) * 0.09
  else if salario ≤ 4000.03 then
    1412.00 * 0.075 + (2666.68 - 1412.00) * 0.09 + (salario - 2666.68) * 0.12
  else if salario ≤ 7786.02 then
    1412.00 * 0.075 + (2666.68 - 1412.00) * 0.09 + (4000.03 - 2666.68) * 0.12 +
      (salario - 4000.03) * 0.14
  else
    1412.00 * 0.075 + (2666.68 - 1412.00) * 0.09 + (4000.03 - 2666.68) * 0.12 +
      (7786.02 - 4000.03) * 0.14

/-- Progressive income tax over the taxable base (same table for 2025 and
2026, unbounded top bracket).  Mirrors `calcular_ir_progressivo`. -/
def calcular_ir_progressivo (base : ℚ) : ℚ :=
  if base ≤ 2259.20 then
    0
  else if base ≤ 2826.65 then
    (base - 2259.20) * 0.075
  else if base ≤ 3751.05 then
    (2826.65 - 2259.20) * 0.075 + (base - 2826.65) * 0.15
  else if base ≤ 4664.68 then
    (2826.65 - 2259.20) * 0.075 + (3751.05 - 2826.65) * 0.15 +
      (base - 3751.05) * 0.225
  else
    (2826.65 - 2259.20) * 0.075 + (3751.05 - 2826.65) * 0.15 +
      (4664.68 - 3751.05) * 0.225 + (base - 4664.68) * 0.275

/-- Reform rebate (PL 1087/2025): full exemption up to base 5000, linear
phase-out up to 7000, nothing above.  The Python body assigns
`reducao = 1095.11 - 0.156445*base`, then `max 0`, then `min` with the
computed tax; that sequence is written here as one expression.
Mirrors `calcular_reducao_reforma_2026`. -/
def calcular_reducao_reforma_2026 (base ir_calculado : ℚ) : ℚ :=
  if base ≤ 5000.00 then
    min 312.89 ir_calculado
  else if base ≤ 7000.00 then
    min (max 0 (1095.11 - 0.156445 * base)) ir_calculado
  else
    0

/-- Result record of `calcular_ir_2025_completo` (Python dict). -/
structure Resultado2025Completa where
  tipo : String
  salario_bruto : ℚ
  inss : ℚ
  previdencia : ℚ
  deducoes_legais : ℚ
  base_calculo : ℚ
  base_tributavel : ℚ
  ir_devido : ℚ
  reducao : ℚ
  ir_final : ℚ

/-- Result record of `calcular_ir_2025_simplificado` (Python dict). -/
structure Resultado2025Simplificada where
  tipo : String
  salario_bruto : ℚ
  inss : ℚ
  previdencia : ℚ
  desconto_simplificado : ℚ
  base_calculo : ℚ
  base_tributavel : ℚ
  ir_devido : ℚ
  reducao : ℚ
  ir_final : ℚ

/-- Result record of `calcular_ir_2026_completo` (Python dict). -/
structure Resultado2026Completa where
  tipo : String
  salario_bruto : ℚ
  inss : ℚ
  previdencia : ℚ
  deducoes_legais : ℚ
  base_calculo : ℚ
  base_tributavel : ℚ
  ir_calculado : ℚ
  reducao : ℚ
  ir_final : ℚ

/-- Result record of `calcular_ir_2026_simplificado` (Python dict). -/
structure Resultado2026Simplificada where
  tipo : String
  salario_bruto : ℚ
  inss : ℚ
  previdencia : ℚ
  desconto_simplificado : ℚ
  base_calculo : ℚ
  base_tributavel : ℚ
  ir_calculado : ℚ
  reducao : ℚ
  ir_final : ℚ

/-- IRRF 2025, itemized filing.  Mirrors `calcular_ir_2025_completo`
(the Python defaults `despesa_saude=0`, `dependentes=0` are passed
explicitly here). -/
def calcular_ir_2025_completo (salario_bruto contribuicao_previdencia despesa_saude : ℚ)
    (dependentes : ℕ) : Resultado2025Completa :=
  let inss := calcular_inss salario_bruto
  let base_calculo := salario_bruto - inss - contribuicao_previdencia
  let deducoes := despesa_saude + (dependentes : ℚ) * 189.59
  let base_tributavel := base_calculo - deducoes
  let ir_devido := calcular_ir_progressivo base_tributavel
  { tipo := "Completa"
    salario_bruto := salario_bruto
    inss := inss
    previdencia := contribuicao_previdencia
    deducoes_legais := deducoes
    base_calculo := base_calculo
    base_tributavel := base_tributavel
    ir_devido := ir_devido
    reducao := 0
    ir_final := ir_devido }

/-- IRRF 2025, simplified filing (flat 20% deduction capped at 16754.34).
Mirrors `calcular_ir_2025_simplificado`. -/
def calcular_ir_2025_simplificado (salario_bruto contribuicao_previdencia : ℚ) :
    Resultado2025Simplificada :=
  let inss := calcular_inss salario_bruto
  let base_calculo := salario_bruto - inss - contribuicao_previdencia
  let teto_desconto : ℚ := 16754.34
  let desconto0 := base_calculo * 0.20
  let desconto := if desconto0 > teto_desconto then teto_desconto else desconto0
  let base_tributavel := base_calculo - desconto
  let ir_devido := calcular_ir_progressivo base_tributavel
  { tipo := "Simplificada"
    salario_bruto := salario_bruto
    inss := inss
    previdencia := contribuicao_previdencia
    desconto_simplificado := desconto
    base_calculo := base_calculo
    base_tributavel := base_tributavel
    ir_devido := ir_devido
    reducao := 0
    ir_final := ir_devido }

/-- IRRF 2026, itemized filing with the reform rebate.  Mirrors
`calcular_ir_2026_completo`. -/
def calcular_ir_2026_completo (salario_bruto contribuicao_previdencia despesa_saude : ℚ)
    (dependentes : ℕ) : Resultado2026Completa :=
  let inss := calcular_inss salario_bruto
  let base_calculo := salario_bruto - inss - contribuicao_previdencia
  let deducoes := despesa_saude + (dependentes : ℚ) * 189.59
  let base_tributavel := base_calculo - deducoes
  let ir_calculado := calcular_ir_progressivo base_tributavel
  let reducao := calcular_reducao_reforma_2026 base_tributavel ir_calculado
  let ir_final := ir_calculado - reducao
  { tipo := "Completa"
    salario_bruto := salario_bruto
    inss := inss
    previdencia := contribuicao_previdencia
    deducoes_legais := deducoes
    base_calculo := base_calculo
    base_tributavel := base_tributavel
    ir_calculado := ir_calculado
    reducao := reducao
    ir_final := ir_final }

/-- IRRF 2026, simplified filing with the reform rebate.  Mirrors
`calcular_ir_2026_simplificado`. -/
def calcular_ir_2026_simplificado (salario_bruto contribuicao_previdencia : ℚ) :
    Resultado2026Simplificada :=
  let inss := calcular_inss salario_bruto
  let base_calculo := salario_bruto - inss - contribuicao_previdencia
  let teto_desconto : ℚ := 16754.34
  let desconto0 := base_calculo * 0.20
  let desconto := if desconto0 > teto_desconto then teto_desconto else desconto0
  let base_tributavel := base_calculo - desconto
  let ir_calculado := calcular_ir_progressivo base_tributavel
  let reducao := calcular_reducao_reforma_2026 base_tributavel ir_calculado
  let ir_final := ir_calculado - reducao
  { tipo := "Simplificada"
    salario_bruto := salario_bruto
    inss := inss
    previdencia := contribuicao_previdencia
    desconto_simplificado := desconto
    base_calculo := base_calculo
    base_tributavel := base_tributavel
    ir_calculado := ir_calculado
    reducao := reducao
    ir_final := ir_final }

/-- Branch formula of `calcular_inss` for salaries in the first tier. -/
def inssFaixa1 (salario : ℚ) : ℚ := salario * 0.075

/-- Branch formula of `calcular_inss` for salaries in the second tier. -/
def inssFaixa2 (salario : ℚ) : ℚ :=
  1412.00 * 0.075 + (salario - 1412.00) * 0.09

/-- Branch formula of `calcular_inss` for salaries in the third tier. -/
def inssFaixa3 (salario : ℚ) : ℚ :=
  1412.00 * 0.075 + (2666.68 - 1412.00) * 0.09 + (salario - 2666.68) * 0.12

/-- Branch formula of `calcular_inss` for salaries in the fourth tier. -/
def inssFaixa4 (salario : ℚ) : ℚ :=
  1412.00 * 0.075 + (2666.68 - 1412.00) * 0.09 + (4000.03 - 2666.68) * 0.12 +
    (salario - 4000.03) * 0.14

/-- Branch formula of `calcular_inss` above the cap (constant). -/
def inssFaixa5 (_salario : ℚ) : ℚ :=
  1412.00 * 0.075 + (2666.68 - 1412.00) * 0.09 + (4000.03 - 2666.68) * 0.12 +
    (7786.02 - 4000.03) * 0.14

/-! ### Helper lemmas -/

/-- The progressive tax is never negative, on any base (also negative ones). -/
theorem ir_progressivo_nonneg (base : ℚ) : 0 ≤ calcular_ir_progressivo base := by
  unfold calcular_ir_progressivo
  split_ifs <;> nlinarith

/-- The reform rebate is non-negative whenever the computed tax is. -/
theorem reducao_nonneg (base t : ℚ) (ht : 0 ≤ t) :
    0 ≤ calcular_reducao_reforma_2026 base t := by
  unfold calcular_reducao_reforma_2026
  split_ifs with h1 h2
  · exact le_min (by norm_num) ht
  · exact le_min (le_max_left 0 _) ht
  · exact le_refl 0

/-- The reform rebate never exceeds the computed tax, whenever that tax is
non-negative. -/
theorem reducao_le_ir (base t : ℚ) (ht : 0 ≤ t) :
    calcular_reducao_reforma_2026 base t ≤ t := by
  unfold calcular_reducao_reforma_2026
  split_ifs with h1 h2
  · exact min_le_right _ _
  · exact min_le_right _ _
  · exact ht

/-! ### Claim theorems -/

/-- C3: `calcular_reducao_reforma_2026 base t` equals exactly `min 312.89 t`
when `base ≤ 5000.00`, equals `min (max 0 (1095.11 - 0.156445*base)) t` when
`5000.00 < base ≤ 7000.00`, and equals `0` when `base > 7000.00`. -/
theorem reducao_reforma_formula_exata (base t : ℚ) :
    (base ≤ 5000.00 → calcular_reducao_reforma_2026 base t = min 312.89 t) ∧
    (5000.00 < base → base ≤ 7000.00 →
      calcular_reducao_reforma_2026 base t =
        min (max 0 (1095.11 - 0.156445 * base)) t) ∧
    (7000.00 < base → calcular_reducao_reforma_2026 base t = 0) := by
  refine ⟨fun h => ?_, fun h1 h2 => ?_, fun h => ?_⟩ <;>
    unfold calcular_reducao_reforma_2026 <;> split_ifs <;> first | rfl | linarith

/-- Witness for C3: the three branches evaluated at the spec's sample points
(`rebate(4000, 200) = 200`, `rebate(6000, 500) = 156.44`,
`rebate(8000, 100) = 0`). -/
theorem reducao_reforma_formula_exata_witness :
    calcular_reducao_reforma_2026 4000 200 = 200 ∧
    calcular_reducao_reforma_2026 6000 500 = 156.44 ∧
    calcular_reducao_reforma_2026 8000 100 = 0 := by
  refine ⟨?_, ?_, ?_⟩
  · rw [(reducao_reforma_formula_exata 4000 200).1 (by norm_num)]; norm_num
  · rw [(reducao_reforma_formula_exata 6000 500).2.1 (by norm_num) (by norm_num)]
    norm_num
  · exact (reducao_reforma_formula_exata 8000 100).2.2 (by norm_num)

/-- C4: in both 2026 calculators the rebate satisfies
`0 ≤ reducao ≤ ir_calculado`, hence the final tax is non-negative, for every
input (the progressive tax itself is never negative). -/
theorem ir_2026_sem_imposto_negativo (s p ds : ℚ) (dep : ℕ) :
    (0 ≤ (calcular_ir_2026_completo s p ds dep).reducao ∧
     (calcular_ir_2026_completo s p ds dep).reducao ≤
       (calcular_ir_2026_completo s p ds dep).ir_calculado ∧
     0 ≤ (calcular_ir_2026_completo s p ds dep).ir_final) ∧
    (0 ≤ (calcular_ir_2026_simplificado s p).reducao ∧
     (calcular_ir_2026_simplificado s p).reducao ≤
       (calcular_ir_2026_simplificado s p).ir_calculado ∧
     0 ≤ (calcular_ir_2026_simplificado s p).ir_final) := by
  simp only [calcular_ir_2026_completo, calcular_ir_2026_simplificado]
  constructor
  · have h1 := ir_progressivo_nonneg
      (s - calcular_inss s - p - (ds + (dep : ℚ) * 189.59))
    have h2 := reducao_nonneg
      (s - calcular_inss s - p - (ds + (dep : ℚ) * 189.59)) _ h1
    have h3 := reducao_le_ir
      (s - calcular_inss s - p - (ds + (dep : ℚ) * 189.59)) _ h1
    exact ⟨h2, h3, by linarith⟩
  · have h1 := ir_progressivo_nonneg
      (s - calcular_inss s - p -
        (if (s - calcular_inss s - p) * 0.20 > 16754.34 then (16754.34 : ℚ)
         else (s - calcular_inss s - p) * 0.20))
    have h2 := reducao_nonneg
      (s - calcular_inss s - p -
        (if (s - calcular_inss s - p) * 0.20 > 16754.34 then (16754.34 : ℚ)
         else (s - calcular_inss s - p) * 0.20)) _ h1
    have h3 := reducao_le_ir
      (s - calcular_inss s - p -
        (if (s - calcular_inss s - p) * 0.20 > 16754.34 then (16754.34 : ℚ)
         else (s - calcular_inss s - p) * 0.20)) _ h1
    exact ⟨h2, h3, by linarith⟩

/-- C5: the INSS contribution is capped: any salary above 7786.02 yields
exactly the contribution at 7786.02. -/
theorem inss_teto (s : ℚ) (hs : 7786.02 < s) :
    calcular_inss s = calcular_inss 7786.02 := by
  unfold calcular_inss
  split_ifs <;> first | rfl | linarith

/-- Witness for C5: a salary of 10000 pays the same contribution as 7786.02. -/
theorem inss_teto_witness : calcular_inss 10000 = calcular_inss 7786.02 :=
  inss_teto 10000 (by norm_num)

/-- C6: the progressive tax is zero on every base at most 2259.20, negative
bases included (no error, no negative amount). -/
theorem ir_progressivo_isento (base : ℚ) (hb : base ≤ 2259.20) :
    calcular_ir_progressivo base = 0 := by
  unfold calcular_ir_progressivo
  rw [if_pos hb]

/-- Witness for C6: a negative base yields zero tax. -/
theorem ir_progressivo_isento_witness : calcular_ir_progressivo (-1000) = 0 :=
  ir_progressivo_isento (-1000) (by norm_num)

/-- C1: for every input, the 2026 final tax is at most the 2025 final tax
under the same filing method (the reform rebate is non-negative). -/
theorem reforma_nunca_aumenta_ir (s p ds : ℚ) (dep : ℕ) :
    (calcular_ir_2026_completo s p ds dep).ir_final ≤
      (calcular_ir_2025_completo s p ds dep).ir_final ∧
    (calcular_ir_2026_simplificado s p).ir_final ≤
      (calcular_ir_2025_simplificado s p).ir_final := by
  simp only [calcular_ir_2026_completo, calcular_ir_2025_completo,
    calcular_ir_2026_simplificado, calcular_ir_2025_simplificado]
  constructor
  · have h1 := ir_progressivo_nonneg
      (s - calcular_inss s - p - (ds + (dep : ℚ) * 189.59))
    have h2 := reducao_nonneg
      (s - calcular_inss s - p - (ds + (dep : ℚ) * 189.59)) _ h1
    linarith
  · have h1 := ir_progressivo_nonneg
      (s - calcular_inss s - p -
        (if (s - calcular_inss s - p) * 0.20 > 16754.34 then (16754.34 : ℚ)
         else (s - calcular_inss s - p) * 0.20))
    have h2 := reducao_nonneg
      (s - calcular_inss s - p -
        (if (s - calcular_inss s - p) * 0.20 > 16754.34 then (16754.34 : ℚ)
         else (s - calcular_inss s - p) * 0.20)) _ h1
    linarith

/-- C2: the 2026 calculators differ from their 2025 counterparts only by the
reform rebate: the 2026 pre-rebate tax `ir_calculado` equals the 2025
`ir_final` (which equals `ir_devido`), the 2026 `ir_final` is that value
minus the rebate, and all other shared fields coincide — for both the
itemized and the simplified pair. -/
theorem anos_diferem_apenas_pela_reducao (s p ds : ℚ) (dep : ℕ) :
    ((calcular_ir_2026_completo s p ds dep).ir_calculado =
       (calcular_ir_2025_completo s p ds dep).ir_final ∧
     (calcular_ir_2025_completo s p ds dep).ir_devido =
       (calcular_ir_2025_completo s p ds dep).ir_final ∧
     (calcular_ir_2026_completo s p ds dep).ir_final =
       (calcular_ir_2025_completo s p ds dep).ir_final -
         (calcular_ir_2026_completo s p ds dep).reducao ∧
     (calcular_ir_2026_completo s p ds dep).inss =
       (calcular_ir_2025_completo s p ds dep).inss ∧
     (calcular_ir_2026_completo s p ds dep).base_calculo =
       (calcular_ir_2025_completo s p ds dep).base_calculo ∧
     (calcular_ir_2026_completo s p ds dep).base_tributavel =
       (calcular_ir_2025_completo s p ds dep).base_tributavel ∧
     (calcular_ir_2026_completo s p ds dep).deducoes_legais =
       (calcular_ir_2025_completo s p ds dep).deducoes_legais) ∧
    ((calcular_ir_2026_simplificado s p).ir_calculado =
       (calcular_ir_2025_simplificado s p).ir_final ∧
     (calcular_ir_2025_simplificado s p).ir_devido =
       (calcular_ir_2025_simplificado s p).ir_final ∧
     (calcular_ir_2026_simplificado s p).ir_final =
       (calcular_ir_2025_simplificado s p).ir_final -
         (calcular_ir_2026_simplificado s p).reducao ∧
     (calcular_ir_2026_simplificado s p).inss =
       (calcular_ir_2025_simplificado s p).inss ∧
     (calcular_ir_2026_simplificado s p).base_calculo =
       (calcular_ir_2025_simplificado s p).base_calculo ∧
     (calcular_ir_2026_simplificado s p).base_tributavel =
       (calcular_ir_2025_simplificado s p).base_tributavel ∧
     (calcular_ir_2026_simplificado s p).desconto_simplificado =
       (calcular_ir_2025_simplificado s p).desconto_simplificado) :=
  ⟨⟨rfl, rfl, rfl, rfl, rfl, rfl, rfl⟩, ⟨rfl, rfl, rfl, rfl, rfl, rfl, rfl⟩⟩

/-- C7: the progressive tax is monotonically non-decreasing in the base. -/
theorem ir_progressivo_monotono (b1 b2 : ℚ) (h : b1 ≤ b2) :
    calcular_ir_progressivo b1 ≤ calcular_ir_progressivo b2 := by
  unfold calcular_ir_progressivo
  split_ifs <;> nlinarith

/-- Witness for C7: the tax at base 3000 is at most the tax at base 5000. -/
theorem ir_progressivo_monotono_witness :
    calcular_ir_progressivo 3000 ≤ calcular_ir_progressivo 5000 :=
  ir_progressivo_monotono 3000 5000 (by norm_num)

/-- C10: the INSS contribution is monotonically non-decreasing in the
salary (and constant above the cap). -/
theorem inss_monotono (s1 s2 : ℚ) (h : s1 ≤ s2) :
    calcular_inss s1 ≤ calcular_inss s2 := by
  unfold calcular_inss
  split_ifs <;> nlinarith

/-- Witness for C10: the contribution at 2000 is at most that at 9000. -/
theorem inss_monotono_witness : calcular_inss 2000 ≤ calcular_inss 9000 :=
  inss_monotono 2000 9000 (by norm_num)

/-- C8: in both simplified calculators the deduction equals
`min (0.20 * base_calculo) 16754.34` with
`base_calculo = gross - calcular_inss gross - pension`, the taxable base is
`base_calculo` minus that deduction, and whenever `0.20 * base_calculo`
exceeds 16754.34 the deduction used is exactly 16754.34. -/
theorem desconto_simplificado_formula (s p : ℚ) :
    ((calcular_ir_2025_simplificado s p).desconto_simplificado =
       min (0.20 * (s - calcular_inss s - p)) 16754.34 ∧
     (calcular_ir_2025_simplificado s p).base_tributavel =
       (calcular_ir_2025_simplificado s p).base_calculo -
         (calcular_ir_2025_simplificado s p).desconto_simplificado ∧
     (calcular_ir_2026_simplificado s p).desconto_simplificado =
       min (0.20 * (s - calcular_inss s - p)) 16754.34 ∧
     (calcular_ir_2026_simplificado s p).base_tributavel =
       (calcular_ir_2026_simplificado s p).base_calculo -
         (calcular_ir_2026_simplificado s p).desconto_simplificado) ∧
    (16754.34 < 0.20 * (s - calcular_inss s - p) →
      (calcular_ir_2025_simplificado s p).desconto_simplificado = 16754.34 ∧
      (calcular_ir_2026_simplificado s p).desconto_simplificado = 16754.34) := by
  simp only [calcular_ir_2025_simplificado, calcular_ir_2026_simplificado]
  constructor
  · refine ⟨?_, ?_, ?_, ?_⟩ <;>
      first
        | trivial
        | (rw [min_def]; split_ifs <;> first | ring1 | linarith)
  · intro h
    constructor <;>
      · split_ifs with h1
        · rfl
        · linarith

/-- Witness for C8: at gross 100000 and pension 0 the 20% deduction exceeds
the cap, so both simplified calculators use exactly 16754.34. -/
theorem desconto_simplificado_formula_witness :
    (calcular_ir_2025_simplificado 100000 0).desconto_simplificado = 16754.34 ∧
    (calcular_ir_2026_simplificado 100000 0).desconto_simplificado = 16754.34 :=
  (desconto_simplificado_formula 100000 0).2 (by norm_num [calcular_inss])

/-- C9: `calcular_inss` agrees with the per-tier branch formulas on their
domains, and in exact rational arithmetic the adjacent branch formulas agree
at every tier boundary (1412.00, 2666.68, 4000.03, 7786.02): the
contribution has no jump at any boundary. -/
theorem inss_continuo_nas_fronteiras :
    (∀ s : ℚ, s ≤ 1412.00 → calcular_inss s = inssFaixa1 s) ∧
    (∀ s : ℚ, 1412.00 < s → s ≤ 2666.68 → calcular_inss s = inssFaixa2 s) ∧
    (∀ s : ℚ, 2666.68 < s → s ≤ 4000.03 → calcular_inss s = inssFaixa3 s) ∧
    (∀ s : ℚ, 4000.03 < s → s ≤ 7786.02 → calcular_inss s = inssFaixa4 s) ∧
    (∀ s : ℚ, 7786.02 < s → calcular_inss s = inssFaixa5 s) ∧
    inssFaixa1 1412.00 = inssFaixa2 1412.00 ∧
    inssFaixa2 2666.68 = inssFaixa3 2666.68 ∧
    inssFaixa3 4000.03 = inssFaixa4 4000.03 ∧
    inssFaixa4 7786.02 = inssFaixa5 7786.02 := by
  refine ⟨fun s hs => ?_, fun s hs1 hs2 => ?_, fun s hs1 hs2 => ?_,
    fun s hs1 hs2 => ?_, fun s hs => ?_, by norm_num [inssFaixa1, inssFaixa2],
    by norm_num [inssFaixa2, inssFaixa3], by norm_num [inssFaixa3, inssFaixa4],
    by norm_num [inssFaixa4, inssFaixa5]⟩ <;>
    · simp only [calcular_inss, inssFaixa1, inssFaixa2, inssFaixa3, inssFaixa4,
        inssFaixa5]
      split_ifs <;> first | rfl | linarith

/-- Witness for C9: the branch agreement applied at salaries 1000 (tier 1)
and 10000 (above the cap). -/
theorem inss_continuo_nas_fronteiras_witness :
    calcular_inss 1000 = inssFaixa1 1000 ∧
    calcular_inss 10000 = inssFaixa5 10000 :=
  ⟨inss_continuo_nas_fronteiras.1 1000 (by norm_num),
   inss_continuo_nas_fronteiras.2.2.2.2.1 10000 (by norm_num)⟩

end IRRF
